import Mathlib

/-!
Verification of the credential-authentication layer of mcp-template-rs:
a shallow embedding of src/error.rs, src/auth/mod.rs, src/auth/apikey.rs
and src/auth/redis.rs, followed by theorems about the embedded code.

External library calls (redis connection and GET, serde_json parsing,
chrono RFC3339 parsing) are modelled as explicit parameters gathered in
a `RedisWorld` record; the uuid crate's string parser is modelled
concretely because claims depend on exactly which strings it accepts.
-/

instance {ε α : Type} [DecidableEq ε] [DecidableEq α] : DecidableEq (Except ε α) := fun x y =>
  match x, y with
  | .error a, .error b =>
    if h : a = b then isTrue (h ▸ rfl) else isFalse fun c => h (Except.error.inj c)
  | .error _, .ok _ => isFalse fun c => Except.noConfusion c
  | .ok _, .error _ => isFalse fun c => Except.noConfusion c
  | .ok a, .ok b =>
    if h : a = b then isTrue (h ▸ rfl) else isFalse fun c => h (Except.ok.inj c)

/-- The error enum of src/error.rs (payloads of foreign error types are
modelled as their display strings). -/
inductive ServerError where
  | config (msg : String)
  | toolExecution (msg : String)
  | resourceNotFound (msg : String)
  | invalidInput (msg : String)
  | database (msg : String)
  | io (msg : String)
  | invalidSession (msg : String)
  | redis (msg : String)
  | httpClient (msg : String)
deriving DecidableEq

/-- Discriminant of a ServerError value: two errors are of the same Rust
enum variant exactly when their discriminants agree. -/
def ServerError.kindIndex : ServerError → Nat
  | .config _ => 0
  | .toolExecution _ => 1
  | .resourceNotFound _ => 2
  | .invalidInput _ => 3
  | .database _ => 4
  | .io _ => 5
  | .invalidSession _ => 6
  | .redis _ => 7
  | .httpClient _ => 8

/-- AuthData of src/auth/mod.rs; the serde_json metadata object is
modelled as an association list of string pairs. -/
structure AuthData where
  user_id : String
  metadata : List (String × String)
deriving DecidableEq

/-- Rust's str::split on a single separator character: splitting the
empty string yields one empty piece, and a leading, trailing or doubled
separator yields empty pieces, exactly as in Rust. -/
def rustSplit (sep : Char) : List Char → List (List Char)
  | [] => [[]]
  | c :: rest =>
    if c = sep then [] :: rustSplit sep rest
    else
      match rustSplit sep rest with
      | [] => [[c]]
      | p :: ps => (c :: p) :: ps

/-- String-level wrapper of rustSplit. -/
def rustSplitStr (sep : Char) (s : String) : List String :=
  (rustSplit sep s.data).map fun l => ⟨l⟩

/-- ASCII hex digit test, as in the uuid crate's character table. -/
def isHexDigitChar (c : Char) : Bool :=
  (('0' ≤ c) && (c ≤ '9')) || (('a' ≤ c) && (c ≤ 'f')) || (('A' ≤ c) && (c ≤ 'F'))

/-- The uuid crate's simple form: exactly 32 hex digits. -/
def parseSimpleUuid (s : List Char) : Bool :=
  (s.length == 32) && s.all isHexDigitChar

/-- The uuid crate's hyphenated form: 36 characters, a hyphen at byte
positions 8, 13, 18 and 23, hex digits everywhere else. No version or
variant bits are checked. -/
def parseHyphenatedUuid (s : List Char) : Bool :=
  (s.length == 36) && s.enum.all fun ic =>
    if ic.1 == 8 || ic.1 == 13 || ic.1 == 18 || ic.1 == 23 then ic.2 == '-'
    else isHexDigitChar ic.2

/-- Uuid::parse_str of the uuid crate: accepts the simple (32 hex),
hyphenated (8-4-4-4-12), braced hyphenated, and lowercase urn:uuid:
forms; any UUID version is accepted. Returns whether parsing succeeds. -/
def uuidTryParse (s : List Char) : Bool :=
  if s.length == 32 then parseSimpleUuid s
  else if s.length == 36 then parseHyphenatedUuid s
  else if s.length == 38 then
    match s with
    | '{' :: rest => (rest.getLast? == some '}') && parseHyphenatedUuid rest.dropLast
    | _ => false
  else if s.length == 45 then
    match s with
    | 'u' :: 'r' :: 'n' :: ':' :: 'u' :: 'u' :: 'i' :: 'd' :: ':' :: rest =>
      parseHyphenatedUuid rest
    | _ => false
  else false

/-- Modelled from the spec: a "UUID version 4 string (8-4-4-4-12 hex
groups per RFC 4122)" — five hyphen-separated hex groups of lengths
8, 4, 4, 4, 12 whose version nibble (first character of the third
group) is 4. Used only to compare the spec's accepted set with the
code's. -/
def specUuidV4Shape (s : List Char) : Bool :=
  match rustSplit '-' s with
  | [g1, g2, g3, g4, g5] =>
    (g1.length == 8) && (g2.length == 4) && (g3.length == 4) &&
    (g4.length == 4) && (g5.length == 12) &&
    (g1 ++ g2 ++ g3 ++ g4 ++ g5).all isHexDigitChar &&
    (g3.head? == some '4')
  | _ => false

/-- SessionData of src/auth/redis.rs. -/
structure SessionData where
  session_id : String
  user_id : String
  created_at : String
  expires_at : String
deriving DecidableEq

/-- OAuthTokenData of src/auth/redis.rs. -/
structure OAuthTokenData where
  user_id : String
  provider : String
  provider_user_id : String
  email : String
  display_name : String
  access_token : String
  refresh_token : Option String
  expires_at : String
  scopes : List String
  linked_at : String
deriving DecidableEq

/-- The field contents of an OAuthTokenData after its derived
ZeroizeOnDrop destructor has run: every field is cleared except
access_token and refresh_token, which carry the zeroize(skip)
attribute in the source and are left untouched. -/
def OAuthTokenData.zeroizeOnDrop (t : OAuthTokenData) : OAuthTokenData :=
  { user_id := ""
    provider := ""
    provider_user_id := ""
    email := ""
    display_name := ""
    access_token := t.access_token
    refresh_token := t.refresh_token
    expires_at := ""
    scopes := []
    linked_at := "" }

/-- OAuthTokenData::is_expired. chrono's RFC3339 parser and clock are
passed in: rfc3339 maps a timestamp string to its instant when it
parses, and now is the current instant. -/
def OAuthTokenData.is_expired (t : OAuthTokenData)
    (rfc3339 : String → Option Int) (now : Int) : Bool :=
  match rfc3339 t.expires_at with
  | some e => decide (now ≥ e)
  | none => true

/-- Rust str::contains: the pattern occurs as a contiguous substring. -/
def strContains (s pat : String) : Bool :=
  decide (pat.data <:+: s.data)

/-- OAuthTokenData::has_scope. -/
def OAuthTokenData.has_scope (t : OAuthTokenData) (required_scope : String) : Bool :=
  t.scopes.any fun scope => strContains scope required_scope

/-- The external collaborators of RedisAuthService for one call:
the outcome of opening the multiplexed connection, the store's GET,
serde_json deserialization into SessionData and OAuthTokenData
(errors carry the display string), chrono's RFC3339 parser, and the
current instant. -/
structure RedisWorld where
  connect : Except String Unit
  get : String → Except String (Option String)
  parseSessionData : String → Except String SessionData
  parseTokenData : String → Except String OAuthTokenData
  rfc3339 : String → Option Int
  now : Int

/-- RedisAuthService::validate_session_format. -/
def RedisAuthService.validate_session_format (session_id : String) :
    Except ServerError Unit :=
  if uuidTryParse session_id.data then .ok ()
  else .error (.invalidSession "Invalid session ID format")

/-- RedisAuthService::resolve_session. -/
def RedisAuthService.resolve_session (w : RedisWorld) (session_id : String) :
    Except ServerError String :=
  if uuidTryParse session_id.data then
    match w.connect with
    | .error e => .error (.redis ("Failed to connect to Redis: " ++ e))
    | .ok _ =>
      match w.get ("mcp_session:" ++ session_id) with
      | .error e => .error (.redis ("Failed to get session: " ++ e))
      | .ok none => .error (.invalidSession "Session not found or expired")
      | .ok (some session_json) =>
        match w.parseSessionData session_json with
        | .error e => .error (.invalidSession ("Invalid session data: " ++ e))
        | .ok session_data => .ok session_data.user_id
  else .error (.invalidSession "Invalid session ID format")

/-- RedisAuthService::get_oauth_token. -/
def RedisAuthService.get_oauth_token (w : RedisWorld) (user_id provider : String) :
    Except ServerError OAuthTokenData :=
  match w.connect with
  | .error e => .error (.redis ("Failed to connect to Redis: " ++ e))
  | .ok _ =>
    match w.get ("linked_account:" ++ user_id ++ ":" ++ provider) with
    | .error e => .error (.redis ("Failed to get OAuth token: " ++ e))
    | .ok none => .error (.invalidSession "OAuth token not found")
    | .ok (some token_json) =>
      match w.parseTokenData token_json with
      | .error e => .error (.invalidSession ("Invalid OAuth token data: " ++ e))
      | .ok token_data =>
        if token_data.is_expired w.rfc3339 w.now then
          .error (.invalidSession "OAuth token expired")
        else .ok token_data

/-- RedisAuthService::authenticate (the inherent composite method). -/
def RedisAuthService.authenticate (w : RedisWorld) (session_id provider : String) :
    Except ServerError OAuthTokenData :=
  match RedisAuthService.resolve_session w session_id with
  | .error e => .error e
  | .ok user_id => RedisAuthService.get_oauth_token w user_id provider

/-- The AuthProvider::authenticate impl for RedisAuthService. -/
def RedisAuthService.providerAuthenticate (w : RedisWorld) (credential : String) :
    Except ServerError AuthData :=
  match RedisAuthService.resolve_session w credential with
  | .error e => .error e
  | .ok user_id =>
    .ok { user_id := user_id
          metadata := [("session_id", credential), ("auth_type", "redis_session")] }

/-- The AuthProvider::validate_credential_format impl for
RedisAuthService, which delegates to validate_session_format. -/
def RedisAuthService.validate_credential_format (credential : String) :
    Except ServerError Unit :=
  RedisAuthService.validate_session_format credential

/-- The api_keys HashMap, modelled as an association list where the most
recent insertion is in front; lookup takes the first match, which gives
the map the HashMap's observable get/insert behaviour. -/
abbrev ApiKeyTable := List (String × String)

/-- HashMap::get on the table. -/
def lookupKey (t : ApiKeyTable) (k : String) : Option String :=
  match t with
  | [] => none
  | (k0, v0) :: rest => if k0 = k then some v0 else lookupKey rest k

/-- HashMap::insert: the new binding shadows any earlier one. -/
def insertKey (t : ApiKeyTable) (k v : String) : ApiKeyTable :=
  (k, v) :: t

/-- One iteration of the from_env loop body: split the pair on a colon
and insert only when that yields exactly two parts. -/
def ApiKeyAuthService.from_env_step (acc : ApiKeyTable) (pair : String) : ApiKeyTable :=
  match rustSplitStr ':' pair with
  | [k, v] => insertKey acc k v
  | _ => acc

/-- ApiKeyAuthService::from_env; the API_KEYS environment variable is
passed as an Option. -/
def ApiKeyAuthService.from_env (env : Option String) : Except String ApiKeyTable :=
  match env with
  | none => .ok []
  | some keys_str => .ok ((rustSplitStr ',' keys_str).foldl ApiKeyAuthService.from_env_step [])

/-- The AuthProvider::authenticate impl for ApiKeyAuthService. -/
def ApiKeyAuthService.authenticate (api_keys : ApiKeyTable) (credential : String) :
    Except ServerError AuthData :=
  match lookupKey api_keys credential with
  | none => .error (.invalidSession "Invalid API key")
  | some user_id => .ok { user_id := user_id, metadata := [("auth_type", "api_key")] }

/-- The AuthProvider::validate_credential_format impl for
ApiKeyAuthService. -/
def ApiKeyAuthService.validate_credential_format (credential : String) :
    Except ServerError Unit :=
  if credential.isEmpty then .error (.invalidSession "API key cannot be empty")
  else .ok ()

/-- The AuthProvider::authenticate impl for NoOpAuthProvider. -/
def NoOpAuthProvider.authenticate (_credential : String) : Except ServerError AuthData :=
  .error (.invalidSession "Authentication is disabled")

/-- The trait-default AuthProvider::validate_credential_format, which
NoOpAuthProvider inherits: it accepts everything. -/
def NoOpAuthProvider.validate_credential_format (_credential : String) :
    Except ServerError Unit :=
  .ok ()

/-- Whether an Except value is a success. -/
def isOkE {ε α : Type} : Except ε α → Bool
  | .ok _ => true
  | .error _ => false

/-- A session record used to instantiate theorems on concrete inputs. -/
def sampleSession : SessionData :=
  { session_id := "550e8400-e29b-41d4-a716-446655440000"
    user_id := "u1"
    created_at := "2020-01-01T00:00:00Z"
    expires_at := "2030-01-01T00:00:00Z" }

/-- A token record with secret material, a future expiry and one scope. -/
def sampleToken : OAuthTokenData :=
  { user_id := "u1"
    provider := "google"
    provider_user_id := "g1"
    email := "u1@example.com"
    display_name := "User One"
    access_token := "secret-access"
    refresh_token := some "secret-refresh"
    expires_at := "2030-01-01T00:00:00Z"
    scopes := ["https://www.googleapis.com/auth/userinfo.email"]
    linked_at := "2020-01-01T00:00:00Z" }

/-- A world whose store holds sampleSession under the sample session key
and sampleToken under the u1/google linked-account key, with a clock
before the token's expiry. -/
def sampleWorld : RedisWorld :=
  { connect := .ok ()
    get := fun k =>
      if k = "mcp_session:550e8400-e29b-41d4-a716-446655440000" then .ok (some "session-json")
      else if k = "linked_account:u1:google" then .ok (some "token-json")
      else .ok none
    parseSessionData := fun j =>
      if j = "session-json" then .ok sampleSession else .error "expected value"
    parseTokenData := fun j =>
      if j = "token-json" then .ok sampleToken else .error "expected value"
    rfc3339 := fun s => if s = "2030-01-01T00:00:00Z" then some 1893456000 else none
    now := 1700000000 }

/-- A world whose store is unreachable. -/
def unreachableWorld : RedisWorld :=
  { connect := .error "connection refused"
    get := fun _ => .error "connection refused"
    parseSessionData := fun _ => .error "unreachable"
    parseTokenData := fun _ => .error "unreachable"
    rfc3339 := fun _ => none
    now := 0 }

example : uuidTryParse "550e8400-e29b-41d4-a716-446655440000".data = true := by decide
example : uuidTryParse "invalid-uuid".data = false := by decide
example : uuidTryParse "".data = false := by decide
example : uuidTryParse "123".data = false := by decide
example : uuidTryParse "00000000-0000-0000-0000-000000000000".data = true := by decide
example : specUuidV4Shape "00000000-0000-0000-0000-000000000000".data = false := by decide
example : specUuidV4Shape "550e8400-e29b-41d4-a716-446655440000".data = true := by decide
example : rustSplitStr ':' ":user1" = ["", "user1"] := by decide
example : rustSplitStr ':' "a:b:c" = ["a", "b", "c"] := by decide
example : ApiKeyAuthService.from_env (some ":user1") = .ok [("", "user1")] := by decide

/-- C1: the claim that access_token and refresh_token are overwritten on
drop fails on the code — the derive marks exactly these two fields with
zeroize(skip), so the destructor clears every non-secret field and
leaves both secrets in memory, here evaluated on a concrete record. -/
theorem c1_secret_fields_survive_drop :
    (∀ t : OAuthTokenData,
      t.zeroizeOnDrop.access_token = t.access_token ∧
      t.zeroizeOnDrop.refresh_token = t.refresh_token ∧
      t.zeroizeOnDrop.email = "" ∧ t.zeroizeOnDrop.user_id = "") ∧
    sampleToken.zeroizeOnDrop.access_token = "secret-access" ∧
    sampleToken.zeroizeOnDrop.refresh_token = some "secret-refresh" := by
  exact ⟨fun t => ⟨rfl, rfl, rfl, rfl⟩, rfl, rfl⟩

/-- C3 counterexample: the disabled provider's error is the same
ServerError variant (InvalidSession) as the key provider's
invalid-credential error and as the session format error, so it is not
a kind distinct from InvalidFormat and InvalidCredential. -/
theorem c3_counterexample_shared_variant :
    NoOpAuthProvider.authenticate "x" = .error (.invalidSession "Authentication is disabled") ∧
    ApiKeyAuthService.authenticate [] "x" = .error (.invalidSession "Invalid API key") ∧
    RedisAuthService.validate_session_format "not-a-uuid" =
      .error (.invalidSession "Invalid session ID format") ∧
    (ServerError.invalidSession "Authentication is disabled").kindIndex =
      (ServerError.invalidSession "Invalid API key").kindIndex ∧
    (ServerError.invalidSession "Authentication is disabled").kindIndex =
      (ServerError.invalidSession "Invalid session ID format").kindIndex := by
  exact ⟨rfl, rfl, by decide, rfl, rfl⟩

/-- C3 amended: the disabled provider fails for every credential with
InvalidSession "Authentication is disabled" and never succeeds; that
error shares its enum variant with format and credential errors and is
distinct only from the store-error variant. -/
theorem c3_noop_always_fails (c : String) :
    NoOpAuthProvider.authenticate c =
      .error (.invalidSession "Authentication is disabled") ∧
    (∀ m m2 : String,
      (ServerError.invalidSession m).kindIndex ≠ (ServerError.redis m2).kindIndex) := by
  exact ⟨rfl, fun m m2 => by simp [ServerError.kindIndex]⟩

/-- C3 amended, witness at a concrete credential. -/
theorem c3_noop_always_fails_witness :
    NoOpAuthProvider.authenticate "any-credential" =
      .error (.invalidSession "Authentication is disabled") :=
  (c3_noop_always_fails "any-credential").1

/-- C7: key-table authentication returns the mapped user with
auth_type api_key metadata on a verbatim hit, and InvalidCredential
(InvalidSession "Invalid API key") on a miss; it is a pure function of
the table and the credential. -/
theorem c7_apikey_authenticate_table (t : ApiKeyTable) (c : String) :
    (∀ u, lookupKey t c = some u →
      ApiKeyAuthService.authenticate t c =
        .ok { user_id := u, metadata := [("auth_type", "api_key")] }) ∧
    (lookupKey t c = none →
      ApiKeyAuthService.authenticate t c = .error (.invalidSession "Invalid API key")) := by
  constructor
  · intro u h
    simp [ApiKeyAuthService.authenticate, h]
  · intro h
    simp [ApiKeyAuthService.authenticate, h]

/-- C7 witness: the spec's end-to-end scenario on the table with one
entry k1 -> u1. -/
theorem c7_apikey_authenticate_table_witness :
    ApiKeyAuthService.authenticate [("k1", "u1")] "k1" =
      .ok { user_id := "u1", metadata := [("auth_type", "api_key")] } ∧
    ApiKeyAuthService.authenticate [("k1", "u1")] "bogus" =
      .error (.invalidSession "Invalid API key") :=
  ⟨(c7_apikey_authenticate_table [("k1", "u1")] "k1").1 "u1" (by decide),
   (c7_apikey_authenticate_table [("k1", "u1")] "bogus").2 (by decide)⟩

/-- C9: has_scope is true exactly when some stored scope contains the
query as a contiguous substring, and is false on an empty scope list. -/
theorem c9_has_scope_iff (t : OAuthTokenData) (required : String) :
    (t.has_scope required = true ↔ ∃ s ∈ t.scopes, required.data <:+: s.data) ∧
    (t.scopes = [] → t.has_scope required = false) := by
  constructor
  · simp [OAuthTokenData.has_scope, strContains, List.any_eq_true]
  · intro h
    simp [OAuthTokenData.has_scope, h]

/-- C9 witness: the sample token's google scope URL contains
userinfo.email, and a token with no scopes answers false. -/
theorem c9_has_scope_iff_witness :
    sampleToken.has_scope "userinfo.email" = true ∧
    OAuthTokenData.has_scope { sampleToken with scopes := [] } "userinfo.email" = false :=
  ⟨(c9_has_scope_iff sampleToken "userinfo.email").1.mpr
      ⟨"https://www.googleapis.com/auth/userinfo.email", by decide, by decide⟩,
   (c9_has_scope_iff { sampleToken with scopes := [] } "userinfo.email").2 rfl⟩

/-- C10: building the key table from the environment always succeeds; a
pair that does not split on a colon into exactly two parts leaves the
table unchanged; the pair ":user1" inserts the empty string as a key;
and the empty credential then authenticates to user1. -/
theorem c10_from_env_never_errors :
    (∀ env : Option String, isOkE (ApiKeyAuthService.from_env env) = true) ∧
    (∀ (acc : ApiKeyTable) (pair : String), (rustSplitStr ':' pair).length ≠ 2 →
      ApiKeyAuthService.from_env_step acc pair = acc) ∧
    ApiKeyAuthService.from_env (some ":user1") = .ok [("", "user1")] ∧
    ApiKeyAuthService.authenticate [("", "user1")] "" =
      .ok { user_id := "user1", metadata := [("auth_type", "api_key")] } := by
  refine ⟨fun env => ?_, fun acc pair h => ?_, by decide, by decide⟩
  · cases env <;> rfl
  · unfold ApiKeyAuthService.from_env_step
    split
    · rename_i k v heq
      exact absurd (by rw [heq]; rfl : (rustSplitStr ':' pair).length = 2) h
    · rfl

/-- C10 witness: a three-part pair is dropped without error. -/
theorem c10_from_env_never_errors_witness :
    ApiKeyAuthService.from_env_step [] "a:b:c" = [] :=
  c10_from_env_never_errors.2.1 [] "a:b:c" (by decide)

/-- C2 counterexample: the nil UUID in 8-4-4-4-12 form (version nibble
0, not 4) and the 32-hex simple form are both accepted by the format
check although neither is a UUIDv4-shaped 8-4-4-4-12 string. -/
theorem c2_counterexample_non_v4_accepted :
    RedisAuthService.validate_session_format "00000000-0000-0000-0000-000000000000" = .ok () ∧
    specUuidV4Shape "00000000-0000-0000-0000-000000000000".data = false ∧
    RedisAuthService.validate_session_format "550e8400e29b41d4a716446655440000" = .ok () ∧
    specUuidV4Shape "550e8400e29b41d4a716446655440000".data = false := by
  exact ⟨by decide, by decide, by decide, by decide⟩

/-- C2 amended: the format check accepts a credential exactly when the
uuid parser accepts it (any UUID version; simple, hyphenated, braced or
urn form); the provider's validate_credential_format delegates to the
same check, and a string the parser rejects makes resolve_session fail
with the format error for every possible store, before any store
access. -/
theorem c2_validate_accepts_iff_uuid_parses (s : String) :
    (RedisAuthService.validate_session_format s = .ok () ↔ uuidTryParse s.data = true) ∧
    RedisAuthService.validate_credential_format s = RedisAuthService.validate_session_format s ∧
    (uuidTryParse s.data = false → ∀ w : RedisWorld,
      RedisAuthService.resolve_session w s =
        .error (.invalidSession "Invalid session ID format")) := by
  refine ⟨?_, rfl, fun h w => ?_⟩
  · unfold RedisAuthService.validate_session_format
    split <;> simp_all
  · simp [RedisAuthService.resolve_session, h]

/-- C2 amended, witness: a malformed credential is rejected by the
format check of resolve_session even when the store is unreachable. -/
theorem c2_validate_accepts_iff_uuid_parses_witness :
    RedisAuthService.resolve_session unreachableWorld "invalid-uuid" =
      .error (.invalidSession "Invalid session ID format") :=
  (c2_validate_accepts_iff_uuid_parses "invalid-uuid").2.2 (by decide) unreachableWorld

/-- C4 counterexample: the key provider's validator rejects the empty
string, yet from_env builds from ":user1" a table with an empty-string
key against which the empty credential authenticates successfully. -/
theorem c4_counterexample_empty_key :
    isOkE (ApiKeyAuthService.validate_credential_format "") = false ∧
    ApiKeyAuthService.from_env (some ":user1") = .ok [("", "user1")] ∧
    ApiKeyAuthService.authenticate [("", "user1")] "" =
      .ok { user_id := "user1", metadata := [("auth_type", "api_key")] } := by
  exact ⟨by decide, by decide, by decide⟩

/-- C4 amended: a credential rejected by a provider's validator is also
rejected by that provider's authenticate, provided for the key provider
that its table has no empty-string key; the session and disabled
providers satisfy it unconditionally. -/
theorem c4_validator_no_false_negatives :
    (∀ (t : ApiKeyTable) (c : String),
      isOkE (ApiKeyAuthService.validate_credential_format c) = false →
      lookupKey t "" = none →
      isOkE (ApiKeyAuthService.authenticate t c) = false) ∧
    (∀ (w : RedisWorld) (c : String),
      isOkE (RedisAuthService.validate_credential_format c) = false →
      isOkE (RedisAuthService.providerAuthenticate w c) = false) ∧
    (∀ c : String, isOkE (NoOpAuthProvider.authenticate c) = false) := by
  refine ⟨fun t c hv ht => ?_, fun w c hv => ?_, fun c => rfl⟩
  · by_cases hc : c.isEmpty = true
    · have hc' : c = "" := (String.isEmpty_iff c).mp hc
      subst hc'
      simp [ApiKeyAuthService.authenticate, ht, isOkE]
    · exfalso
      simp [ApiKeyAuthService.validate_credential_format, hc, isOkE] at hv
  · by_cases hu : uuidTryParse c.data = true
    · exfalso
      simp [RedisAuthService.validate_credential_format,
        RedisAuthService.validate_session_format, hu, isOkE] at hv
    · have hu' : uuidTryParse c.data = false := by
        simpa using hu
      simp [RedisAuthService.providerAuthenticate, RedisAuthService.resolve_session,
        hu', isOkE]

/-- C4 amended, witness: with an empty table (no empty-string key) the
rejected empty credential fails authentication, and a malformed session
id fails session authentication even with an unreachable store. -/
theorem c4_validator_no_false_negatives_witness :
    isOkE (ApiKeyAuthService.authenticate [] "") = false ∧
    isOkE (RedisAuthService.providerAuthenticate unreachableWorld "123") = false :=
  ⟨c4_validator_no_false_negatives.1 [] "" (by decide) (by decide),
   c4_validator_no_false_negatives.2.1 unreachableWorld "123" (by decide)⟩

/-- C5: resolve_session classifies every outcome — malformed id yields
the format error independent of the store, connection or transport
faults yield the store (Redis) error, a missing key yields the
invalid-credential "Session not found or expired" error, a
deserialization failure yields the invalid-credential "Invalid session
data" error, and on success the result is the record's user_id. -/
theorem c5_resolve_session_classification (w : RedisWorld) (s : String) :
    (uuidTryParse s.data = false →
      RedisAuthService.resolve_session w s =
        .error (.invalidSession "Invalid session ID format")) ∧
    (∀ e, uuidTryParse s.data = true → w.connect = .error e →
      RedisAuthService.resolve_session w s =
        .error (.redis ("Failed to connect to Redis: " ++ e))) ∧
    (∀ e, uuidTryParse s.data = true → w.connect = .ok () →
      w.get ("mcp_session:" ++ s) = .error e →
      RedisAuthService.resolve_session w s =
        .error (.redis ("Failed to get session: " ++ e))) ∧
    (uuidTryParse s.data = true → w.connect = .ok () →
      w.get ("mcp_session:" ++ s) = .ok none →
      RedisAuthService.resolve_session w s =
        .error (.invalidSession "Session not found or expired")) ∧
    (∀ j e, uuidTryParse s.data = true → w.connect = .ok () →
      w.get ("mcp_session:" ++ s) = .ok (some j) → w.parseSessionData j = .error e →
      RedisAuthService.resolve_session w s =
        .error (.invalidSession ("Invalid session data: " ++ e))) ∧
    (∀ j sd, uuidTryParse s.data = true → w.connect = .ok () →
      w.get ("mcp_session:" ++ s) = .ok (some j) → w.parseSessionData j = .ok sd →
      RedisAuthService.resolve_session w s = .ok sd.user_id) := by
  refine ⟨fun h => ?_, fun e h1 h2 => ?_, fun e h1 h2 h3 => ?_, fun h1 h2 h3 => ?_,
    fun j e h1 h2 h3 h4 => ?_, fun j sd h1 h2 h3 h4 => ?_⟩ <;>
    simp [RedisAuthService.resolve_session, *]

/-- C5 witness: the spec's scenario 3 — no record under the sample
session key in a world holding no such session makes resolve_session
fail with the not-found-or-expired invalid-credential error. -/
theorem c5_resolve_session_classification_witness :
    RedisAuthService.resolve_session sampleWorld "11111111-2222-4333-8444-555555555555" =
      .error (.invalidSession "Session not found or expired") :=
  (c5_resolve_session_classification sampleWorld "11111111-2222-4333-8444-555555555555").2.2.2.1
    (by decide) (by decide) (by decide)

/-- C6: a token whose expires_at parses with now at or past the instant
is expired, one parsing strictly in the future is not expired, an
unparsable expires_at is expired fail-safe, and get_oauth_token never
returns an expired record — the expired path yields the
invalid-credential "OAuth token expired" error. -/
theorem c6_expiry_fail_safe (rfc : String → Option Int) (now e : Int)
    (t : OAuthTokenData) (w : RedisWorld) (uid prov : String) :
    (rfc t.expires_at = some e → t.is_expired rfc now = decide (now ≥ e)) ∧
    (rfc t.expires_at = none → t.is_expired rfc now = true) ∧
    (∀ td, RedisAuthService.get_oauth_token w uid prov = .ok td →
      td.is_expired w.rfc3339 w.now = false) ∧
    (∀ j td, w.connect = .ok () →
      w.get ("linked_account:" ++ uid ++ ":" ++ prov) = .ok (some j) →
      w.parseTokenData j = .ok td → td.is_expired w.rfc3339 w.now = true →
      RedisAuthService.get_oauth_token w uid prov =
        .error (.invalidSession "OAuth token expired")) := by
  refine ⟨fun h => ?_, fun h => ?_, fun td h => ?_, fun j td h1 h2 h3 h4 => ?_⟩
  · simp [OAuthTokenData.is_expired, h]
  · simp [OAuthTokenData.is_expired, h]
  · unfold RedisAuthService.get_oauth_token at h
    split at h
    · exact absurd h (by simp)
    · split at h
      · exact absurd h (by simp)
      · exact absurd h (by simp)
      · split at h
        · exact absurd h (by simp)
        · split at h
          · exact absurd h (by simp)
          · rename_i hexp
            cases h
            simpa using hexp
  · simp [RedisAuthService.get_oauth_token, h1, h2, h3, h4]

/-- C6 witness: the sample world's token for u1/google is fetched
unexpired, so its expiry predicate answers false under the world's
clock. -/
theorem c6_expiry_fail_safe_witness :
    sampleToken.is_expired sampleWorld.rfc3339 sampleWorld.now = false :=
  (c6_expiry_fail_safe (fun _ => none) 0 0 sampleToken sampleWorld "u1" "google").2.2.1
    sampleToken (by decide)

/-- C8: the composite authenticate is the sequential composition of
resolve_session and get_oauth_token — a resolution failure is returned
as-is and short-circuits, and on resolution success the result is
exactly get_oauth_token applied to the resolved user_id. -/
theorem c8_composite_authenticate (w : RedisWorld) (sid prov : String) :
    (∀ e, RedisAuthService.resolve_session w sid = .error e →
      RedisAuthService.authenticate w sid prov = .error e) ∧
    (∀ uid, RedisAuthService.resolve_session w sid = .ok uid →
      RedisAuthService.authenticate w sid prov =
        RedisAuthService.get_oauth_token w uid prov) := by
  constructor <;> intro x h <;> simp [RedisAuthService.authenticate, h]

/-- C8 witness: in the sample world the sample session resolves to u1
and the composite call equals get_oauth_token for u1/google. -/
theorem c8_composite_authenticate_witness :
    RedisAuthService.authenticate sampleWorld
        "550e8400-e29b-41d4-a716-446655440000" "google" =
      RedisAuthService.get_oauth_token sampleWorld "u1" "google" :=
  (c8_composite_authenticate sampleWorld
      "550e8400-e29b-41d4-a716-446655440000" "google").2 "u1" (by decide)
